import Mathlib

/-!
# Automated lighting controller (`automated_lighting.cpp`)

A shallow embedding of the occupancy-driven lighting controller: two PIR
sensors (room, bathroom) raise interrupts, a one-second control loop drives
three active-low relays.

* The file-scope variables of the program, together with the observable
  effects of the wiringPi calls and of the console streams, form `State`.
* `millis()` is an input: every function that reads the clock takes the value
  it read as the argument `now`.
* `unsigned long` is `w` bits wide (`w = 32` on 32-bit Raspberry Pi OS,
  `w = 64` on the 64-bit one); values are natural numbers and the arithmetic
  is taken modulo `2 ^ w` explicitly.
-/

namespace AutomatedLighting

/-! ## Data model -/

/-- Digital levels of wiringPi (`LOW`, `HIGH`). The relays are active low. -/
inductive Level where
  | LOW
  | HIGH
  deriving DecidableEq, Repr

/-- Pin modes of wiringPi (`INPUT`, `OUTPUT`). -/
inductive PinMode where
  | INPUT
  | OUTPUT
  deriving DecidableEq, Repr

def PIR_ROOM : Nat := 17
def PIR_BATHROOM : Nat := 27
def RELAY_LIGHT1 : Nat := 22
def RELAY_LIGHT2 : Nat := 23
def RELAY_LIGHT3 : Nat := 24

/-- The constant `LIGHT_TIMEOUT`: 5 minutes in milliseconds. -/
def LIGHT_TIMEOUT : Nat := 300000

/-- Program state: the four file-scope variables, the chronological record of
`pinMode` and `digitalWrite` calls, the lines sent to `std::cout` and
`std::cerr`, and the exit status once the process has called `exit`. -/
structure State where
  roomOccupied : Bool
  bathroomOccupied : Bool
  lastMotionTimeRoom : Nat
  lastMotionTimeBathroom : Nat
  modes : List (Nat × PinMode)
  writes : List (Nat × Level)
  cout : List String
  cerr : List String
  exitCode : Option Nat
  deriving DecidableEq, Repr

/-- The values of the file-scope variables at program start (lines 14-17),
with nothing written yet. -/
def globals : State where
  roomOccupied := false
  bathroomOccupied := false
  lastMotionTimeRoom := 0
  lastMotionTimeBathroom := 0
  modes := []
  writes := []
  cout := []
  cerr := []
  exitCode := none

/-! ## Machine arithmetic -/

/-- Conversion of a clock reading to `unsigned long` of `w` bits. -/
def toULong (w n : Nat) : Nat := n % 2 ^ w

/-- Subtraction of `unsigned long` values of `w` bits: `a - b` modulo `2 ^ w`. -/
def subULong (w a b : Nat) : Nat := (a % 2 ^ w + (2 ^ w - b % 2 ^ w)) % 2 ^ w

/-! ## External calls -/

/-- The call `digitalWrite(pin, level)`: appended to the record of writes. -/
def digitalWrite (pin : Nat) (level : Level) (s : State) : State :=
  { s with writes := s.writes ++ [(pin, level)] }

/-- The call `pinMode(pin, mode)`. -/
def pinMode (pin : Nat) (mode : PinMode) (s : State) : State :=
  { s with modes := s.modes ++ [(pin, mode)] }

/-- One line sent to `std::cout`. -/
def coutLine (msg : String) (s : State) : State :=
  { s with cout := s.cout ++ [msg] }

/-- One line sent to `std::cerr`. -/
def cerrLine (msg : String) (s : State) : State :=
  { s with cerr := s.cerr ++ [msg] }

/-- The level a pin was last commanded to in a chronological record of writes
(the last write wins); `none` when the pin was never written. -/
def lastWrite (pin : Nat) (ws : List (Nat × Level)) : Option Level :=
  ws.foldl (fun acc e => if e.1 = pin then some e.2 else acc) none

/-- The level last commanded on a pin in a state. -/
def pinLevel (s : State) (pin : Nat) : Option Level := lastWrite pin s.writes

/-! ## Interrupt service routines (lines 75-86) -/

/-- The routine `roomMotionDetected`, with `now` the value of `millis()`. -/
def roomMotionDetected (w now : Nat) (s : State) : State :=
  let s := { s with roomOccupied := true }
  let s := { s with lastMotionTimeRoom := toULong w now }
  coutLine "Motion detected in room" s

/-- The routine `bathroomMotionDetected`, with `now` the value of `millis()`. -/
def bathroomMotionDetected (w now : Nat) (s : State) : State :=
  let s := { s with bathroomOccupied := true }
  let s := { s with lastMotionTimeBathroom := toULong w now }
  coutLine "Motion detected in bathroom" s

/-! ## The control function (lines 89-123) -/

/-- The block "Room lights control" of `controlLights` (lines 93-107). -/
def roomLightsControl (w currentTime : Nat) (s : State) : State :=
  if s.roomOccupied then
    let s := digitalWrite RELAY_LIGHT1 Level.LOW s
    let s := digitalWrite RELAY_LIGHT2 Level.LOW s
    if subULong w currentTime s.lastMotionTimeRoom > LIGHT_TIMEOUT then
      let s := { s with roomOccupied := false }
      coutLine "Room lights timeout - turning off" s
    else s
  else
    let s := digitalWrite RELAY_LIGHT1 Level.HIGH s
    digitalWrite RELAY_LIGHT2 Level.HIGH s

/-- The block "Bathroom light control" of `controlLights` (lines 110-122). -/
def bathroomLightControl (w currentTime : Nat) (s : State) : State :=
  if s.bathroomOccupied then
    let s := digitalWrite RELAY_LIGHT3 Level.LOW s
    if subULong w currentTime s.lastMotionTimeBathroom > LIGHT_TIMEOUT then
      let s := { s with bathroomOccupied := false }
      coutLine "Bathroom light timeout - turning off" s
    else s
  else
    digitalWrite RELAY_LIGHT3 Level.HIGH s

/-- The function `controlLights`, with `now` the value of `millis()` read on
its first line. -/
def controlLights (w now : Nat) (s : State) : State :=
  let currentTime := toULong w now
  let s := roomLightsControl w currentTime s
  bathroomLightControl w currentTime s

/-! ## Shutdown (lines 126-135) -/

/-- The signal handler `cleanup`: all three relays are written `HIGH`, then
`exit(0)`. -/
def cleanup (_signal : Int) (s : State) : State :=
  let s := coutLine "\nShutting down lighting system..." s
  let s := digitalWrite RELAY_LIGHT1 Level.HIGH s
  let s := digitalWrite RELAY_LIGHT2 Level.HIGH s
  let s := digitalWrite RELAY_LIGHT3 Level.HIGH s
  { s with exitCode := some 0 }

/-! ## Start-up (lines 26-63) -/

/-- Outcome of the start-up part of `main`: it returned with a status, or it
reached the control loop. -/
inductive Startup where
  | returned (code : Nat) (s : State)
  | looping (s : State)
  deriving DecidableEq, Repr

/-- The part of `main` before the control loop. The arguments are the values
returned by `wiringPiSetupGpio()` and by the two `wiringPiISR` calls. -/
def mainInit (setup isrRoom isrBathroom : Int) : Startup :=
  let s := coutLine "Initializing Automated Lighting System..." globals
  if setup = -1 then
    Startup.returned 1 (cerrLine "Failed to initialize WiringPi" s)
  else
    let s := pinMode PIR_ROOM PinMode.INPUT s
    let s := pinMode PIR_BATHROOM PinMode.INPUT s
    let s := pinMode RELAY_LIGHT1 PinMode.OUTPUT s
    let s := pinMode RELAY_LIGHT2 PinMode.OUTPUT s
    let s := pinMode RELAY_LIGHT3 PinMode.OUTPUT s
    let s := digitalWrite RELAY_LIGHT1 Level.HIGH s
    let s := digitalWrite RELAY_LIGHT2 Level.HIGH s
    let s := digitalWrite RELAY_LIGHT3 Level.HIGH s
    if isrRoom < 0 then
      Startup.returned 1 (cerrLine "Unable to setup ISR for room PIR" s)
    else if isrBathroom < 0 then
      Startup.returned 1 (cerrLine "Unable to setup ISR for bathroom PIR" s)
    else
      Startup.looping (coutLine "System ready. Monitoring for motion..." s)

/-- The state in which the control loop is entered when all three
initialisations succeed (each returning 0). -/
def loopEntry : State :=
  match mainInit 0 0 0 with
  | Startup.looping s => s
  | Startup.returned _ s => s

/-! ## The running system -/

/-- What can happen once the loop runs: an interrupt of either sensor, one
iteration of the loop (a call of `controlLights`), or `SIGINT`. Each carries
the value `millis()` returns to it. -/
inductive Event where
  | roomMotion (now : Nat)
  | bathroomMotion (now : Nat)
  | tick (now : Nat)
  | sigint
  deriving DecidableEq, Repr

/-- One event applied to a state; nothing runs after `exit`. -/
def step (w : Nat) (s : State) (e : Event) : State :=
  if s.exitCode.isSome then s
  else
    match e with
    | Event.roomMotion now => roomMotionDetected w now s
    | Event.bathroomMotion now => bathroomMotionDetected w now s
    | Event.tick now => controlLights w now s
    | Event.sigint => cleanup 2 s

/-- A sequence of events applied in order. -/
def run (w : Nat) (s : State) (evs : List Event) : State :=
  evs.foldl (step w) s

/-! ## Zones -/

/-- The two zones of the controller. -/
inductive Zone where
  | Room
  | Bathroom
  deriving DecidableEq, Repr

/-- The occupancy flag of a zone (`roomOccupied`, `bathroomOccupied`). -/
def occupied (z : Zone) (s : State) : Bool :=
  match z with
  | Zone.Room => s.roomOccupied
  | Zone.Bathroom => s.bathroomOccupied

/-- The motion time stamp of a zone (`lastMotionTimeRoom`,
`lastMotionTimeBathroom`). -/
def lastMotionTime (z : Zone) (s : State) : Nat :=
  match z with
  | Zone.Room => s.lastMotionTimeRoom
  | Zone.Bathroom => s.lastMotionTimeBathroom

/-- The relays a zone drives, as written by its block of `controlLights`. -/
def relaysOf (z : Zone) : List Nat :=
  match z with
  | Zone.Room => [RELAY_LIGHT1, RELAY_LIGHT2]
  | Zone.Bathroom => [RELAY_LIGHT3]

/-- The interrupt routine of a zone. -/
def onMotion (w : Nat) (z : Zone) (now : Nat) (s : State) : State :=
  match z with
  | Zone.Room => roomMotionDetected w now s
  | Zone.Bathroom => bathroomMotionDetected w now s

/-- The interrupt of a zone as an event. -/
def motionEvent (z : Zone) (now : Nat) : Event :=
  match z with
  | Zone.Room => Event.roomMotion now
  | Zone.Bathroom => Event.bathroomMotion now

/-- The writes a step added: what `after` recorded beyond `before`. -/
def newWrites (before after : State) : List (Nat × Level) :=
  after.writes.drop before.writes.length

/-- Relay/occupancy consistency of a state: every relay of an occupied zone
was last commanded ON (`LOW`), every relay of an idle zone OFF (`HIGH`). -/
def Consistent (s : State) : Prop :=
  ∀ z : Zone, ∀ r ∈ relaysOf z,
    pinLevel s r = some (if occupied z s then Level.LOW else Level.HIGH)

/-- Clock value of the most recent interrupt of zone `z` in a sequence of
events; `none` when the sequence holds no interrupt of `z`. -/
def lastMotionOf (z : Zone) (evs : List Event) : Option Nat :=
  evs.foldl
    (fun acc e =>
      match z, e with
      | Zone.Room, Event.roomMotion t => some t
      | Zone.Bathroom, Event.bathroomMotion t => some t
      | _, _ => acc)
    none

/-! ## Basic facts -/

theorem subULong_of_le (w a b : Nat) (hab : b ≤ a) (ha : a < 2 ^ w) :
    subULong w a b = a - b := by
  unfold subULong
  have hb : b < 2 ^ w := lt_of_le_of_lt hab ha
  rw [Nat.mod_eq_of_lt ha, Nat.mod_eq_of_lt hb]
  have h : a + (2 ^ w - b) = (a - b) + 2 ^ w := by omega
  rw [h, Nat.add_mod_right]
  exact Nat.mod_eq_of_lt (by omega)

theorem controlLights_writes (w now : Nat) (s : State) :
    (controlLights w now s).writes =
      s.writes ++
        [(RELAY_LIGHT1, if s.roomOccupied then Level.LOW else Level.HIGH),
         (RELAY_LIGHT2, if s.roomOccupied then Level.LOW else Level.HIGH),
         (RELAY_LIGHT3, if s.bathroomOccupied then Level.LOW else Level.HIGH)] := by
  unfold controlLights roomLightsControl bathroomLightControl
  cases hr : s.roomOccupied <;> cases hb : s.bathroomOccupied <;>
    simp [digitalWrite, coutLine, hr, hb] <;> split <;> simp <;> split <;> simp

theorem lastWrite_append_single (pin p : Nat) (v : Level) (ws : List (Nat × Level)) :
    lastWrite pin (ws ++ [(p, v)]) = if p = pin then some v else lastWrite pin ws := by
  simp [lastWrite, List.foldl_append]

theorem newWrites_append (a b : State) (l : List (Nat × Level))
    (h : b.writes = a.writes ++ l) : newWrites a b = l := by
  simp [newWrites, h]

theorem controlLights_newWrites (w now : Nat) (s : State) :
    newWrites s (controlLights w now s) =
      [(RELAY_LIGHT1, if s.roomOccupied then Level.LOW else Level.HIGH),
       (RELAY_LIGHT2, if s.roomOccupied then Level.LOW else Level.HIGH),
       (RELAY_LIGHT3, if s.bathroomOccupied then Level.LOW else Level.HIGH)] :=
  newWrites_append _ _ _ (controlLights_writes w now s)

theorem controlLights_pinLevel1 (w now : Nat) (s : State) :
    pinLevel (controlLights w now s) RELAY_LIGHT1 =
      some (if s.roomOccupied then Level.LOW else Level.HIGH) := by
  simp [pinLevel, controlLights_writes, lastWrite, List.foldl_append, RELAY_LIGHT1,
    RELAY_LIGHT2, RELAY_LIGHT3]

theorem controlLights_pinLevel2 (w now : Nat) (s : State) :
    pinLevel (controlLights w now s) RELAY_LIGHT2 =
      some (if s.roomOccupied then Level.LOW else Level.HIGH) := by
  simp [pinLevel, controlLights_writes, lastWrite, List.foldl_append, RELAY_LIGHT1,
    RELAY_LIGHT2, RELAY_LIGHT3]

theorem controlLights_pinLevel3 (w now : Nat) (s : State) :
    pinLevel (controlLights w now s) RELAY_LIGHT3 =
      some (if s.bathroomOccupied then Level.LOW else Level.HIGH) := by
  simp [pinLevel, controlLights_writes, lastWrite, List.foldl_append, RELAY_LIGHT1,
    RELAY_LIGHT2, RELAY_LIGHT3]

theorem controlLights_pinLevel (w now : Nat) (s : State) (z : Zone) (r : Nat)
    (hr : r ∈ relaysOf z) :
    pinLevel (controlLights w now s) r =
      some (if occupied z s then Level.LOW else Level.HIGH) := by
  cases z <;> simp [relaysOf] at hr
  · rcases hr with rfl | rfl
    · exact controlLights_pinLevel1 w now s
    · exact controlLights_pinLevel2 w now s
  · subst hr
    exact controlLights_pinLevel3 w now s

theorem controlLights_mem_newWrites (w now : Nat) (s : State) (z : Zone) (r : Nat)
    (hr : r ∈ relaysOf z) :
    (r, if occupied z s then Level.LOW else Level.HIGH) ∈
      newWrites s (controlLights w now s) := by
  rw [controlLights_newWrites]
  cases z <;> simp [relaysOf] at hr
  · rcases hr with rfl | rfl <;> simp [occupied]
  · subst hr
    simp [occupied]

theorem controlLights_roomOccupied (w now : Nat) (s : State) :
    (controlLights w now s).roomOccupied =
      (s.roomOccupied &&
        !decide (subULong w (toULong w now) s.lastMotionTimeRoom > LIGHT_TIMEOUT)) := by
  unfold controlLights roomLightsControl bathroomLightControl
  cases hr : s.roomOccupied <;> cases hb : s.bathroomOccupied <;>
    simp [digitalWrite, coutLine, hr, hb] <;> split <;> simp_all <;> split <;> simp_all

theorem controlLights_bathroomOccupied (w now : Nat) (s : State) :
    (controlLights w now s).bathroomOccupied =
      (s.bathroomOccupied &&
        !decide (subULong w (toULong w now) s.lastMotionTimeBathroom > LIGHT_TIMEOUT)) := by
  unfold controlLights roomLightsControl bathroomLightControl
  cases hr : s.roomOccupied <;> cases hb : s.bathroomOccupied <;>
    simp [digitalWrite, coutLine, hr, hb] <;> split <;> simp_all <;> split <;> simp_all

theorem controlLights_lastMotionTimeRoom (w now : Nat) (s : State) :
    (controlLights w now s).lastMotionTimeRoom = s.lastMotionTimeRoom := by
  unfold controlLights roomLightsControl bathroomLightControl
  cases hr : s.roomOccupied <;> cases hb : s.bathroomOccupied <;>
    simp [digitalWrite, coutLine, hr, hb] <;> split <;> simp_all <;> split <;> simp_all

theorem controlLights_lastMotionTimeBathroom (w now : Nat) (s : State) :
    (controlLights w now s).lastMotionTimeBathroom = s.lastMotionTimeBathroom := by
  unfold controlLights roomLightsControl bathroomLightControl
  cases hr : s.roomOccupied <;> cases hb : s.bathroomOccupied <;>
    simp [digitalWrite, coutLine, hr, hb] <;> split <;> simp_all <;> split <;> simp_all

theorem controlLights_exitCode (w now : Nat) (s : State) :
    (controlLights w now s).exitCode = s.exitCode := by
  unfold controlLights roomLightsControl bathroomLightControl
  cases hr : s.roomOccupied <;> cases hb : s.bathroomOccupied <;>
    simp [digitalWrite, coutLine, hr, hb] <;> split <;> simp_all <;> split <;> simp_all

theorem controlLights_occupied (w now : Nat) (s : State) (z : Zone) :
    occupied z (controlLights w now s) =
      (occupied z s &&
        !decide (subULong w (toULong w now) (lastMotionTime z s) > LIGHT_TIMEOUT)) := by
  cases z
  · exact controlLights_roomOccupied w now s
  · exact controlLights_bathroomOccupied w now s

theorem controlLights_lastMotionTime (w now : Nat) (s : State) (z : Zone) :
    lastMotionTime z (controlLights w now s) = lastMotionTime z s := by
  cases z
  · exact controlLights_lastMotionTimeRoom w now s
  · exact controlLights_lastMotionTimeBathroom w now s

theorem onMotion_occupied (w : Nat) (z : Zone) (now : Nat) (s : State) :
    occupied z (onMotion w z now s) = true := by
  cases z <;> rfl

theorem onMotion_lastMotionTime (w : Nat) (z : Zone) (now : Nat) (s : State) :
    lastMotionTime z (onMotion w z now s) = toULong w now := by
  cases z <;> rfl

theorem onMotion_writes (w : Nat) (z : Zone) (now : Nat) (s : State) :
    (onMotion w z now s).writes = s.writes := by
  cases z <;> rfl

theorem toULong_of_lt (w n : Nat) (h : n < 2 ^ w) : toULong w n = n :=
  Nat.mod_eq_of_lt h

theorem run_append (w : Nat) (s : State) (a b : List Event) :
    run w s (a ++ b) = run w (run w s a) b := by
  simp [run, List.foldl_append]

theorem run_cons (w : Nat) (s : State) (e : Event) (es : List Event) :
    run w s (e :: es) = run w (step w s e) es := rfl

theorem run_nil (w : Nat) (s : State) : run w s [] = s := rfl

theorem step_tick (w now : Nat) (s : State) (h : s.exitCode = none) :
    step w s (Event.tick now) = controlLights w now s := by
  simp [step, h]

/-- Ticks no later than the time stamp plus the timeout keep an occupied zone
occupied and its time stamp in place. -/
theorem run_ticks_keep_occupied (w : Nat) (z : Zone) (L : Nat) (ts : List Nat)
    (hL : L + 300000 < 2 ^ w)
    (hts : ∀ t ∈ ts, L ≤ t ∧ t ≤ L + 300000) (s : State)
    (hx : s.exitCode = none) (hocc : occupied z s = true) (hlast : lastMotionTime z s = L) :
    occupied z (run w s (ts.map Event.tick)) = true ∧
    lastMotionTime z (run w s (ts.map Event.tick)) = L ∧
    (run w s (ts.map Event.tick)).exitCode = none := by
  induction ts generalizing s with
  | nil => exact ⟨hocc, hlast, hx⟩
  | cons t ts ih =>
    rw [List.map_cons, run_cons, step_tick w t s hx]
    have ht := hts t (List.mem_cons_self t ts)
    have htw : t < 2 ^ w := by omega
    apply ih (fun u hu => hts u (List.mem_cons_of_mem t hu))
    · rw [controlLights_exitCode]; exact hx
    · rw [controlLights_occupied, hocc, hlast, toULong_of_lt w t htw,
        subULong_of_le w t L ht.1 htw]
      simp [LIGHT_TIMEOUT]; omega
    · rw [controlLights_lastMotionTime]; exact hlast

/-- C1: for each zone, every starting state and all clock values `t0`, `D` with
`D < 300000` and `t0 + D` representable, the interrupt routine of the zone at
`t0` followed by one `controlLights` at `t0 + D` leaves the zone occupied, and
that call writes `LOW` (ON) to every relay of the zone, which is then the level
last commanded on it. -/
theorem C1_tick_within_timeout_keeps_on (w : Nat) (z : Zone) (s : State) (t0 D : Nat)
    (hD : D < 300000) (hov : t0 + D < 2 ^ w) :
    occupied z (controlLights w (t0 + D) (onMotion w z t0 s)) = true ∧
    ∀ r ∈ relaysOf z,
      (r, Level.LOW) ∈
        newWrites (onMotion w z t0 s) (controlLights w (t0 + D) (onMotion w z t0 s)) ∧
      (r, Level.HIGH) ∉
        newWrites (onMotion w z t0 s) (controlLights w (t0 + D) (onMotion w z t0 s)) ∧
      pinLevel (controlLights w (t0 + D) (onMotion w z t0 s)) r = some Level.LOW := by
  have ht0 : t0 < 2 ^ w := by omega
  have hsub : subULong w (t0 + D) t0 = D := by
    rw [subULong_of_le w (t0 + D) t0 (by omega) hov]; omega
  refine ⟨?_, ?_⟩
  · rw [controlLights_occupied, onMotion_occupied, onMotion_lastMotionTime,
      toULong_of_lt w _ hov, toULong_of_lt w _ ht0, hsub]
    simp [LIGHT_TIMEOUT]; omega
  · intro r hr
    have h1 := controlLights_mem_newWrites w (t0 + D) (onMotion w z t0 s) z r hr
    have h2 := controlLights_pinLevel w (t0 + D) (onMotion w z t0 s) z r hr
    rw [onMotion_occupied] at h1 h2
    refine ⟨by simpa using h1, ?_, by simpa using h2⟩
    rw [controlLights_newWrites]
    cases z <;> simp [relaysOf] at hr
    · rcases hr with rfl | rfl <;>
        simp [roomMotionDetected, onMotion, coutLine, RELAY_LIGHT1, RELAY_LIGHT2, RELAY_LIGHT3]
    · subst hr
      simp [bathroomMotionDetected, onMotion, coutLine, RELAY_LIGHT1, RELAY_LIGHT2,
        RELAY_LIGHT3]

theorem C1_tick_within_timeout_keeps_on_witness :
    occupied Zone.Room
        (controlLights 32 (0 + 299999) (onMotion 32 Zone.Room 0 loopEntry)) = true ∧
    ∀ r ∈ relaysOf Zone.Room,
      (r, Level.LOW) ∈
        newWrites (onMotion 32 Zone.Room 0 loopEntry)
          (controlLights 32 (0 + 299999) (onMotion 32 Zone.Room 0 loopEntry)) ∧
      (r, Level.HIGH) ∉
        newWrites (onMotion 32 Zone.Room 0 loopEntry)
          (controlLights 32 (0 + 299999) (onMotion 32 Zone.Room 0 loopEntry)) ∧
      pinLevel (controlLights 32 (0 + 299999) (onMotion 32 Zone.Room 0 loopEntry)) r =
        some Level.LOW :=
  C1_tick_within_timeout_keeps_on 32 Zone.Room loopEntry 0 299999 (by decide) (by decide)

/-- C2: for each zone, every starting state and all clock values `t0`, `e > 0`
with `t0 + 300000 + e` representable, after the interrupt routine of the zone
at `t0` a `controlLights` at `t0 + 300000 + e` clears the zone's occupied flag,
and the next `controlLights`, at any clock value `t2`, writes `HIGH` (OFF) to
every relay of the zone, which is then the level last commanded on it. -/
theorem C2_tick_after_timeout_turns_off (w : Nat) (z : Zone) (s : State) (t0 e t2 : Nat)
    (he : 0 < e) (hov : t0 + 300000 + e < 2 ^ w) :
    occupied z (controlLights w (t0 + 300000 + e) (onMotion w z t0 s)) = false ∧
    ∀ r ∈ relaysOf z,
      (r, Level.HIGH) ∈
        newWrites (controlLights w (t0 + 300000 + e) (onMotion w z t0 s))
          (controlLights w t2 (controlLights w (t0 + 300000 + e) (onMotion w z t0 s))) ∧
      (r, Level.LOW) ∉
        newWrites (controlLights w (t0 + 300000 + e) (onMotion w z t0 s))
          (controlLights w t2 (controlLights w (t0 + 300000 + e) (onMotion w z t0 s))) ∧
      pinLevel
          (controlLights w t2 (controlLights w (t0 + 300000 + e) (onMotion w z t0 s))) r =
        some Level.HIGH := by
  have ht0 : t0 < 2 ^ w := by omega
  have hsub : subULong w (t0 + 300000 + e) t0 = 300000 + e := by
    rw [subULong_of_le w (t0 + 300000 + e) t0 (by omega) hov]; omega
  have hidle : occupied z (controlLights w (t0 + 300000 + e) (onMotion w z t0 s)) = false := by
    rw [controlLights_occupied, onMotion_occupied, onMotion_lastMotionTime,
      toULong_of_lt w _ hov, toULong_of_lt w _ ht0, hsub]
    simp [LIGHT_TIMEOUT]; omega
  refine ⟨hidle, ?_⟩
  intro r hr
  have h1 := controlLights_mem_newWrites w t2
    (controlLights w (t0 + 300000 + e) (onMotion w z t0 s)) z r hr
  have h2 := controlLights_pinLevel w t2
    (controlLights w (t0 + 300000 + e) (onMotion w z t0 s)) z r hr
  rw [hidle] at h1 h2
  refine ⟨by simpa using h1, ?_, by simpa using h2⟩
  rw [controlLights_newWrites]
  cases z <;> simp [relaysOf] at hr
  · simp only [occupied] at hidle
    rcases hr with rfl | rfl <;> simp [hidle, RELAY_LIGHT1, RELAY_LIGHT2, RELAY_LIGHT3]
  · subst hr
    simp only [occupied] at hidle
    simp [hidle, RELAY_LIGHT1, RELAY_LIGHT2, RELAY_LIGHT3]

theorem C2_tick_after_timeout_turns_off_witness :
    occupied Zone.Room
        (controlLights 32 (0 + 300000 + 1) (onMotion 32 Zone.Room 0 loopEntry)) = false ∧
    ∀ r ∈ relaysOf Zone.Room,
      (r, Level.HIGH) ∈
        newWrites (controlLights 32 (0 + 300000 + 1) (onMotion 32 Zone.Room 0 loopEntry))
          (controlLights 32 301001
            (controlLights 32 (0 + 300000 + 1) (onMotion 32 Zone.Room 0 loopEntry))) ∧
      (r, Level.LOW) ∉
        newWrites (controlLights 32 (0 + 300000 + 1) (onMotion 32 Zone.Room 0 loopEntry))
          (controlLights 32 301001
            (controlLights 32 (0 + 300000 + 1) (onMotion 32 Zone.Room 0 loopEntry))) ∧
      pinLevel
          (controlLights 32 301001
            (controlLights 32 (0 + 300000 + 1) (onMotion 32 Zone.Room 0 loopEntry))) r =
        some Level.HIGH :=
  C2_tick_after_timeout_turns_off 32 Zone.Room loopEntry 0 1 301001 (by decide) (by decide)

/-- C4, as stated, fails: the room interrupt at clock 0 on the loop-entry state
leaves the room occupied with Light1 last commanded `HIGH` (OFF), and after a
further tick at 300001 the room is idle with Light1 last commanded `LOW` (ON). -/
theorem C4_consistency_counterexample :
    ¬ Consistent (run 32 loopEntry [Event.roomMotion 0]) ∧
    ¬ Consistent (run 32 loopEntry [Event.roomMotion 0, Event.tick 300001]) := by
  constructor
  · intro h
    have h1 := h Zone.Room RELAY_LIGHT1 (by simp [relaysOf])
    revert h1
    decide
  · intro h
    have h1 := h Zone.Room RELAY_LIGHT1 (by simp [relaysOf])
    revert h1
    decide

/-- C4, amended: for every state (so for every reachable one) and every clock
value, immediately after `controlLights` every relay of a zone that is occupied
after the call was last commanded `LOW` (ON), and every relay of a zone that was
idle when the call began was last commanded `HIGH` (OFF), the zone staying idle;
and an interrupt routine leaves the level last commanded on every pin as it
was. -/
theorem C4_consistency_after_tick (w now : Nat) (s : State) (z : Zone) :
    (occupied z (controlLights w now s) = true →
      ∀ r ∈ relaysOf z, pinLevel (controlLights w now s) r = some Level.LOW) ∧
    (occupied z s = false →
      occupied z (controlLights w now s) = false ∧
      ∀ r ∈ relaysOf z, pinLevel (controlLights w now s) r = some Level.HIGH) ∧
    (∀ (y : Zone) (pin : Nat), pinLevel (onMotion w y now s) pin = pinLevel s pin) := by
  refine ⟨?_, ?_, ?_⟩
  · intro h r hr
    rw [controlLights_occupied] at h
    have ho : occupied z s = true := by
      cases hz : occupied z s
      · rw [hz] at h; simp at h
      · rfl
    rw [controlLights_pinLevel w now s z r hr, ho]
    rfl
  · intro h
    refine ⟨by rw [controlLights_occupied, h]; rfl, ?_⟩
    intro r hr
    rw [controlLights_pinLevel w now s z r hr, h]
    rfl
  · intro y pin
    unfold pinLevel
    rw [onMotion_writes]

theorem C4_consistency_after_tick_witness :
    (occupied Zone.Room (controlLights 32 1000 (roomMotionDetected 32 0 loopEntry)) = true →
      ∀ r ∈ relaysOf Zone.Room,
        pinLevel (controlLights 32 1000 (roomMotionDetected 32 0 loopEntry)) r =
          some Level.LOW) ∧
    occupied Zone.Room (controlLights 32 1000 (roomMotionDetected 32 0 loopEntry)) = true ∧
    (occupied Zone.Bathroom (roomMotionDetected 32 0 loopEntry) = false →
      occupied Zone.Bathroom
          (controlLights 32 1000 (roomMotionDetected 32 0 loopEntry)) = false ∧
      ∀ r ∈ relaysOf Zone.Bathroom,
        pinLevel (controlLights 32 1000 (roomMotionDetected 32 0 loopEntry)) r =
          some Level.HIGH) ∧
    occupied Zone.Bathroom (roomMotionDetected 32 0 loopEntry) = false :=
  ⟨(C4_consistency_after_tick 32 1000 (roomMotionDetected 32 0 loopEntry) Zone.Room).1,
    by decide,
    (C4_consistency_after_tick 32 1000 (roomMotionDetected 32 0 loopEntry) Zone.Bathroom).2.1,
    by decide⟩

/-! ## Frame properties of the interrupt routines -/

/-- C5: zone independence of motion events. For every state and clock value,
`roomMotionDetected` leaves `bathroomOccupied`, `lastMotionTimeBathroom` and the
level last commanded on Light3 unchanged, and `bathroomMotionDetected` leaves
`roomOccupied`, `lastMotionTimeRoom` and the levels last commanded on Light1 and
Light2 unchanged. -/
theorem C5_motion_zone_independence (w now : Nat) (s : State) :
    ((roomMotionDetected w now s).bathroomOccupied = s.bathroomOccupied ∧
      (roomMotionDetected w now s).lastMotionTimeBathroom = s.lastMotionTimeBathroom ∧
      pinLevel (roomMotionDetected w now s) RELAY_LIGHT3 = pinLevel s RELAY_LIGHT3) ∧
    ((bathroomMotionDetected w now s).roomOccupied = s.roomOccupied ∧
      (bathroomMotionDetected w now s).lastMotionTimeRoom = s.lastMotionTimeRoom ∧
      pinLevel (bathroomMotionDetected w now s) RELAY_LIGHT1 = pinLevel s RELAY_LIGHT1 ∧
      pinLevel (bathroomMotionDetected w now s) RELAY_LIGHT2 = pinLevel s RELAY_LIGHT2) :=
  ⟨⟨rfl, rfl, rfl⟩, ⟨rfl, rfl, rfl, rfl⟩⟩

/-! ## Shutdown -/

/-- C6: for every state and signal number, `cleanup` performs exactly the three
writes Light1, Light2, Light3 := `HIGH` (OFF), so that each relay is last
commanded `HIGH`; it changes neither occupied flag nor time stamp; and it ends
in `exit(0)`, whatever the input. -/
theorem C6_cleanup_all_off (signal : Int) (s : State) :
    newWrites s (cleanup signal s) =
      [(RELAY_LIGHT1, Level.HIGH), (RELAY_LIGHT2, Level.HIGH), (RELAY_LIGHT3, Level.HIGH)] ∧
    (cleanup signal s).writes =
      s.writes ++
        [(RELAY_LIGHT1, Level.HIGH), (RELAY_LIGHT2, Level.HIGH), (RELAY_LIGHT3, Level.HIGH)] ∧
    pinLevel (cleanup signal s) RELAY_LIGHT1 = some Level.HIGH ∧
    pinLevel (cleanup signal s) RELAY_LIGHT2 = some Level.HIGH ∧
    pinLevel (cleanup signal s) RELAY_LIGHT3 = some Level.HIGH ∧
    (cleanup signal s).roomOccupied = s.roomOccupied ∧
    (cleanup signal s).bathroomOccupied = s.bathroomOccupied ∧
    (cleanup signal s).lastMotionTimeRoom = s.lastMotionTimeRoom ∧
    (cleanup signal s).lastMotionTimeBathroom = s.lastMotionTimeBathroom ∧
    (cleanup signal s).exitCode = some 0 := by
  have hw : (cleanup signal s).writes =
      s.writes ++
        [(RELAY_LIGHT1, Level.HIGH), (RELAY_LIGHT2, Level.HIGH),
          (RELAY_LIGHT3, Level.HIGH)] := by
    simp [cleanup, digitalWrite, coutLine]
  refine ⟨newWrites_append _ _ _ hw, hw, ?_, ?_, ?_, rfl, rfl, rfl, rfl, rfl⟩ <;>
    simp [pinLevel, hw, lastWrite, List.foldl_append, RELAY_LIGHT1, RELAY_LIGHT2,
      RELAY_LIGHT3]

/-! ## Idle steady state -/

theorem run_ticks_idle (w : Nat) (ts : List Nat) (s : State)
    (hx : s.exitCode = none) (hr : s.roomOccupied = false) (hb : s.bathroomOccupied = false) :
    (run w s (ts.map Event.tick)).roomOccupied = false ∧
    (run w s (ts.map Event.tick)).bathroomOccupied = false ∧
    (run w s (ts.map Event.tick)).exitCode = none := by
  induction ts generalizing s with
  | nil => exact ⟨hr, hb, hx⟩
  | cons t ts ih =>
    rw [List.map_cons, run_cons, step_tick w t s hx]
    apply ih
    · rw [controlLights_exitCode]; exact hx
    · rw [controlLights_roomOccupied, hr]; rfl
    · rw [controlLights_bathroomOccupied, hb]; rfl

/-- C7: idle steady state. The loop is entered with both occupied flags false
and all three relays last commanded `HIGH` (OFF); with no interrupt ever
taken, after every finite sequence of ticks at arbitrary clock values both
flags are still false, and the next tick, at any clock value, runs
`controlLights`, writes exactly Light1, Light2, Light3 := `HIGH` and leaves both
flags false. -/
theorem C7_idle_steady_state (w : Nat) (ts : List Nat) (now : Nat) :
    (loopEntry.roomOccupied = false ∧ loopEntry.bathroomOccupied = false ∧
      pinLevel loopEntry RELAY_LIGHT1 = some Level.HIGH ∧
      pinLevel loopEntry RELAY_LIGHT2 = some Level.HIGH ∧
      pinLevel loopEntry RELAY_LIGHT3 = some Level.HIGH) ∧
    (run w loopEntry (ts.map Event.tick)).roomOccupied = false ∧
    (run w loopEntry (ts.map Event.tick)).bathroomOccupied = false ∧
    step w (run w loopEntry (ts.map Event.tick)) (Event.tick now) =
      controlLights w now (run w loopEntry (ts.map Event.tick)) ∧
    newWrites (run w loopEntry (ts.map Event.tick))
        (step w (run w loopEntry (ts.map Event.tick)) (Event.tick now)) =
      [(RELAY_LIGHT1, Level.HIGH), (RELAY_LIGHT2, Level.HIGH), (RELAY_LIGHT3, Level.HIGH)] ∧
    (step w (run w loopEntry (ts.map Event.tick)) (Event.tick now)).roomOccupied = false ∧
    (step w (run w loopEntry (ts.map Event.tick)) (Event.tick now)).bathroomOccupied =
      false := by
  obtain ⟨hr, hb, hx⟩ := run_ticks_idle w ts loopEntry rfl rfl rfl
  refine ⟨⟨rfl, rfl, by decide, by decide, by decide⟩, hr, hb, step_tick w now _ hx, ?_, ?_, ?_⟩
  · rw [step_tick w now _ hx, controlLights_newWrites, hr, hb]; rfl
  · rw [step_tick w now _ hx, controlLights_roomOccupied, hr]; rfl
  · rw [step_tick w now _ hx, controlLights_bathroomOccupied, hb]; rfl

/-! ## The timeout rule -/

/-- C8: the timeout rule and its boundary. For a zone that is occupied with time
stamp `L` and every representable clock value `now ≥ L`, after `controlLights`
the zone is idle exactly when `now - L > 300000`; at `now - L = 300000` it stays
occupied, at `now - L = 300001` it becomes idle; and `controlLights` never
changes a time stamp. -/
theorem C8_timeout_boundary (w : Nat) (z : Zone) (s : State) (now : Nat)
    (hocc : occupied z s = true) (hle : lastMotionTime z s ≤ now) (hnow : now < 2 ^ w) :
    (occupied z (controlLights w now s) = false ↔ now - lastMotionTime z s > 300000) ∧
    (now - lastMotionTime z s = 300000 → occupied z (controlLights w now s) = true) ∧
    (now - lastMotionTime z s = 300001 → occupied z (controlLights w now s) = false) ∧
    (∀ (y : Zone) (t : Nat) (u : State),
      lastMotionTime y (controlLights w t u) = lastMotionTime y u) := by
  have hocc2 : occupied z (controlLights w now s) =
      !decide (now - lastMotionTime z s > 300000) := by
    rw [controlLights_occupied, hocc, toULong_of_lt w now hnow,
      subULong_of_le w now _ hle hnow]
    rfl
  refine ⟨?_, ?_, ?_, fun y t u => controlLights_lastMotionTime w t u y⟩
  · rw [hocc2]; simp
  · intro h; rw [hocc2, h]; rfl
  · intro h; rw [hocc2, h]; rfl

theorem C8_timeout_boundary_witness :
    occupied Zone.Room (controlLights 32 300007 (roomMotionDetected 32 7 loopEntry)) = true ∧
    occupied Zone.Bathroom
      (controlLights 32 300008 (bathroomMotionDetected 32 7 loopEntry)) = false :=
  ⟨(C8_timeout_boundary 32 Zone.Room (roomMotionDetected 32 7 loopEntry) 300007
      rfl (by decide) (by decide)).2.1 (by decide),
    (C8_timeout_boundary 32 Zone.Bathroom (bathroomMotionDetected 32 7 loopEntry) 300008
      rfl (by decide) (by decide)).2.2.1 (by decide)⟩

/-! ## Relay writes of one tick -/

/-- C9: for every state and clock value, `controlLights` performs exactly three
relay writes, one to each of Light1, Light2, Light3 in that order, whatever the
levels recorded before; both room relays receive the same level (`LOW` when
`roomOccupied` held at the start, else `HIGH`), and Light3 receives `LOW` when
`bathroomOccupied` held at the start, else `HIGH`. -/
theorem C9_tick_writes_each_relay_once (w now : Nat) (s : State) :
    (controlLights w now s).writes =
      s.writes ++
        [(RELAY_LIGHT1, if s.roomOccupied then Level.LOW else Level.HIGH),
         (RELAY_LIGHT2, if s.roomOccupied then Level.LOW else Level.HIGH),
         (RELAY_LIGHT3, if s.bathroomOccupied then Level.LOW else Level.HIGH)] ∧
    (newWrites s (controlLights w now s)).length = 3 ∧
    (newWrites s (controlLights w now s)).map Prod.fst =
      [RELAY_LIGHT1, RELAY_LIGHT2, RELAY_LIGHT3] ∧
    ∃ a b : Level,
      newWrites s (controlLights w now s) =
        [(RELAY_LIGHT1, a), (RELAY_LIGHT2, a), (RELAY_LIGHT3, b)] := by
  refine ⟨controlLights_writes w now s, ?_, ?_, ?_⟩
  · rw [controlLights_newWrites]; rfl
  · rw [controlLights_newWrites]; rfl
  · exact ⟨_, _, controlLights_newWrites w now s⟩

/-! ## Effect of a motion event -/

/-- C10: for each zone, every state and every representable clock value `t`, the
zone's interrupt routine sets the zone's occupied flag, sets its time stamp to
`t`, and performs no relay write: the record of writes, and so the level last
commanded on Light1, Light2 and Light3, is the same before and after. -/
theorem C10_motion_sets_flag_and_stamp (w : Nat) (z : Zone) (t : Nat) (s : State)
    (ht : t < 2 ^ w) :
    occupied z (onMotion w z t s) = true ∧
    lastMotionTime z (onMotion w z t s) = t ∧
    (onMotion w z t s).writes = s.writes ∧
    newWrites s (onMotion w z t s) = [] ∧
    pinLevel (onMotion w z t s) RELAY_LIGHT1 = pinLevel s RELAY_LIGHT1 ∧
    pinLevel (onMotion w z t s) RELAY_LIGHT2 = pinLevel s RELAY_LIGHT2 ∧
    pinLevel (onMotion w z t s) RELAY_LIGHT3 = pinLevel s RELAY_LIGHT3 := by
  have hw := onMotion_writes w z t s
  refine ⟨onMotion_occupied w z t s, ?_, hw, ?_, ?_, ?_, ?_⟩
  · rw [onMotion_lastMotionTime, toULong_of_lt w t ht]
  · simp [newWrites, hw]
  · simp [pinLevel, hw]
  · simp [pinLevel, hw]
  · simp [pinLevel, hw]

theorem C10_motion_sets_flag_and_stamp_witness :
    lastMotionTime Zone.Bathroom (onMotion 32 Zone.Bathroom 4294967295 loopEntry) =
      4294967295 :=
  (C10_motion_sets_flag_and_stamp 32 Zone.Bathroom 4294967295 loopEntry (by decide)).2.1

/-! ## The late OFF write -/

theorem subULong_wrapped (w a b : Nat) (hab : a < b) (hb : b < 2 ^ w) :
    subULong w a b = a + 2 ^ w - b := by
  unfold subULong
  have ha : a < 2 ^ w := lt_trans hab hb
  rw [Nat.mod_eq_of_lt ha, Nat.mod_eq_of_lt hb]
  have h : a + (2 ^ w - b) = a + 2 ^ w - b := by omega
  rw [h]
  exact Nat.mod_eq_of_lt (by omega)

/-- C11: OFF is applied one tick late. For a zone that is occupied with time
stamp `L` and every representable clock value `now` with `now - L > 300000`,
`controlLights` at `now` writes `LOW` (ON) to every relay of the zone and clears
the zone's occupied flag in the same call; the next `controlLights`, at any
clock value `t2` and with no interrupt of the zone in between, writes `HIGH`
(OFF) to every relay of the zone. -/
theorem C11_off_one_tick_late (w : Nat) (z : Zone) (s : State) (now t2 : Nat)
    (hocc : occupied z s = true) (hnow : now < 2 ^ w)
    (hel : now - lastMotionTime z s > 300000) :
    (∀ r ∈ relaysOf z,
      (r, Level.LOW) ∈ newWrites s (controlLights w now s) ∧
      pinLevel (controlLights w now s) r = some Level.LOW) ∧
    occupied z (controlLights w now s) = false ∧
    (∀ r ∈ relaysOf z,
      (r, Level.HIGH) ∈
        newWrites (controlLights w now s) (controlLights w t2 (controlLights w now s)) ∧
      pinLevel (controlLights w t2 (controlLights w now s)) r = some Level.HIGH) := by
  have hidle : occupied z (controlLights w now s) = false := by
    rw [controlLights_occupied, hocc, toULong_of_lt w now hnow,
      subULong_of_le w now _ (by omega) hnow]
    simp [LIGHT_TIMEOUT]; omega
  refine ⟨?_, hidle, ?_⟩
  · intro r hr
    have h1 := controlLights_mem_newWrites w now s z r hr
    have h2 := controlLights_pinLevel w now s z r hr
    rw [hocc] at h1 h2
    exact ⟨by simpa using h1, by simpa using h2⟩
  · intro r hr
    have h1 := controlLights_mem_newWrites w t2 (controlLights w now s) z r hr
    have h2 := controlLights_pinLevel w t2 (controlLights w now s) z r hr
    rw [hidle] at h1 h2
    exact ⟨by simpa using h1, by simpa using h2⟩

theorem C11_off_one_tick_late_witness :
    (∀ r ∈ relaysOf Zone.Room,
      (r, Level.LOW) ∈
        newWrites (roomMotionDetected 32 0 loopEntry)
          (controlLights 32 300001 (roomMotionDetected 32 0 loopEntry)) ∧
      pinLevel (controlLights 32 300001 (roomMotionDetected 32 0 loopEntry)) r =
        some Level.LOW) ∧
    occupied Zone.Room (controlLights 32 300001 (roomMotionDetected 32 0 loopEntry)) = false ∧
    (∀ r ∈ relaysOf Zone.Room,
      (r, Level.HIGH) ∈
        newWrites (controlLights 32 300001 (roomMotionDetected 32 0 loopEntry))
          (controlLights 32 301001
            (controlLights 32 300001 (roomMotionDetected 32 0 loopEntry))) ∧
      pinLevel
          (controlLights 32 301001
            (controlLights 32 300001 (roomMotionDetected 32 0 loopEntry))) r =
        some Level.HIGH) :=
  C11_off_one_tick_late 32 Zone.Room (roomMotionDetected 32 0 loopEntry) 300001 301001
    rfl (by decide) (by decide)

/-! ## Wraparound of the millisecond counter -/

/-- Where `unsigned long` has 64 bits, every tick that reads the 32-bit counter
after a wrap (`now < L < 2 ^ 32`) clears the flag of an occupied zone, however
little time has really elapsed. -/
theorem wraparound_64bit_times_out (z : Zone) (s : State) (now : Nat)
    (hocc : occupied z s = true) (hwrap : now < lastMotionTime z s)
    (hL : lastMotionTime z s < 2 ^ 32) :
    occupied z (controlLights 64 now s) = false := by
  have hL64 : lastMotionTime z s < 2 ^ 64 := lt_trans hL (by decide)
  have hnow : now < 2 ^ 64 := lt_trans hwrap hL64
  rw [controlLights_occupied, hocc, toULong_of_lt 64 now hnow,
    subULong_wrapped 64 now _ hwrap hL64]
  have h32 : (2 : Nat) ^ 32 = 4294967296 := by decide
  have h64 : (2 : Nat) ^ 64 = 18446744073709551616 := by decide
  rw [h32] at hL
  rw [h64]
  simp [LIGHT_TIMEOUT]; omega

/-- C12: the claim (one wraparound of the 32-bit counter leaves the elapsed time
right) evaluated where `unsigned long` has 64 bits. The room interrupt reads
4294966296, the counter wraps, and the tick reads 500, so 1500 ms have really
elapsed; `controlLights` computes the difference in 64 bits, finds
18446744069414585820, above the timeout, and clears `roomOccupied`, where the
claim has the room stay occupied. With 32 bits the same readings keep it
occupied. -/
theorem C12_wraparound_counterexample :
    occupied Zone.Room (roomMotionDetected 64 4294966296 loopEntry) = true ∧
    lastMotionTime Zone.Room (roomMotionDetected 64 4294966296 loopEntry) = 4294966296 ∧
    500 < 4294966296 ∧ 4294966296 < 2 ^ 32 ∧
    500 + 2 ^ 32 - 4294966296 ≤ 300000 ∧
    subULong 64 (toULong 64 500) 4294966296 = 18446744069414585820 ∧
    occupied Zone.Room
      (controlLights 64 500 (roomMotionDetected 64 4294966296 loopEntry)) = false ∧
    occupied Zone.Room
      (controlLights 32 500 (roomMotionDetected 32 4294966296 loopEntry)) = true := by
  decide

/-- Where `unsigned long` has 32 bits, the width of the counter, the elapsed
time survives one wraparound. For a zone occupied with time stamp `L` and a tick
reading `now < L` after one wrap, `controlLights` computes the true elapsed time
`now + 2 ^ 32 - L`; when that is at most 300000 the zone stays occupied and its
relays are written `LOW` (ON), and when it exceeds 300000 the occupied flag is
cleared. -/
theorem wraparound_32bit_elapsed (z : Zone) (s : State) (now : Nat)
    (hocc : occupied z s = true) (hwrap : now < lastMotionTime z s)
    (hL : lastMotionTime z s < 2 ^ 32) :
    subULong 32 (toULong 32 now) (lastMotionTime z s) = now + 2 ^ 32 - lastMotionTime z s ∧
    (now + 2 ^ 32 - lastMotionTime z s ≤ 300000 →
      occupied z (controlLights 32 now s) = true ∧
      ∀ r ∈ relaysOf z,
        (r, Level.LOW) ∈ newWrites s (controlLights 32 now s) ∧
        pinLevel (controlLights 32 now s) r = some Level.LOW) ∧
    (now + 2 ^ 32 - lastMotionTime z s > 300000 →
      occupied z (controlLights 32 now s) = false) := by
  have hnow : now < 2 ^ 32 := lt_trans hwrap hL
  have hsub : subULong 32 (toULong 32 now) (lastMotionTime z s) =
      now + 2 ^ 32 - lastMotionTime z s := by
    rw [toULong_of_lt 32 now hnow, subULong_wrapped 32 now _ hwrap hL]
  refine ⟨hsub, ?_, ?_⟩
  · intro h
    refine ⟨?_, ?_⟩
    · rw [controlLights_occupied, hocc, hsub]
      simp [LIGHT_TIMEOUT]; omega
    · intro r hr
      have h1 := controlLights_mem_newWrites 32 now s z r hr
      have h2 := controlLights_pinLevel 32 now s z r hr
      rw [hocc] at h1 h2
      exact ⟨by simpa using h1, by simpa using h2⟩
  · intro h
    rw [controlLights_occupied, hocc, hsub]
    simp [LIGHT_TIMEOUT]; omega

theorem wraparound_32bit_elapsed_example :
    occupied Zone.Room
      (controlLights 32 500 (roomMotionDetected 32 4294966296 loopEntry)) = true ∧
    occupied Zone.Bathroom
      (controlLights 32 300000 (bathroomMotionDetected 32 4294967295 loopEntry)) = false :=
  ⟨((wraparound_32bit_elapsed Zone.Room (roomMotionDetected 32 4294966296 loopEntry) 500
      rfl (by decide) (by decide)).2.1 (by decide)).1,
    (wraparound_32bit_elapsed Zone.Bathroom (bathroomMotionDetected 32 4294967295 loopEntry)
      300000 rfl (by decide) (by decide)).2.2 (by decide)⟩

/-! ## The time stamp invariant -/

theorem step_exited (w : Nat) (s : State) (e : Event) (h : s.exitCode.isSome = true) :
    step w s e = s := by
  simp [step, h]

theorem run_exited (w : Nat) (evs : List Event) (s : State)
    (h : s.exitCode.isSome = true) : run w s evs = s := by
  induction evs with
  | nil => rfl
  | cons e es ih => rw [run_cons, step_exited w s e h, ih]

theorem run_snoc (w : Nat) (s : State) (evs : List Event) (e : Event) :
    run w s (evs ++ [e]) = step w (run w s evs) e := by
  rw [run_append, run_cons, run_nil]

theorem lastMotionOf_snoc (z : Zone) (evs : List Event) (e : Event) :
    lastMotionOf z (evs ++ [e]) =
      match z, e with
      | Zone.Room, Event.roomMotion t => some t
      | Zone.Bathroom, Event.bathroomMotion t => some t
      | _, _ => lastMotionOf z evs := by
  simp [lastMotionOf, List.foldl_append]

theorem cleanup_lastMotionTime (signal : Int) (s : State) (z : Zone) :
    lastMotionTime z (cleanup signal s) = lastMotionTime z s := by
  cases z <;> rfl

theorem cleanup_occupied (signal : Int) (s : State) (z : Zone) :
    occupied z (cleanup signal s) = occupied z s := by
  cases z <;> rfl

/-- While the process runs, each time stamp is the converted clock value of the
zone's most recent interrupt (0 before the first one), and an occupied zone has
had an interrupt. -/
theorem run_timestamp_inv (w : Nat) (evs : List Event) (hns : Event.sigint ∉ evs) :
    (run w loopEntry evs).exitCode = none ∧
    ∀ z : Zone,
      lastMotionTime z (run w loopEntry evs) =
        (match lastMotionOf z evs with
         | some t => toULong w t
         | none => 0) ∧
      (occupied z (run w loopEntry evs) = true → (lastMotionOf z evs).isSome = true) := by
  induction evs using List.reverseRecOn with
  | nil =>
    refine ⟨rfl, ?_⟩
    intro z
    have hr : occupied Zone.Room (run w loopEntry []) = false := rfl
    have hb : occupied Zone.Bathroom (run w loopEntry []) = false := rfl
    cases z
    · exact ⟨rfl, fun h => by rw [hr] at h; cases h⟩
    · exact ⟨rfl, fun h => by rw [hb] at h; cases h⟩
  | append_singleton l e ih =>
    have hl : Event.sigint ∉ l := fun h => hns (List.mem_append_left _ h)
    have he : e ≠ Event.sigint := fun h => hns (by simp [h])
    obtain ⟨hx, hz⟩ := ih hl
    rw [run_snoc]
    generalize run w loopEntry l = sl at hx hz
    cases e with
    | sigint => exact absurd rfl he
    | tick now =>
      rw [step_tick w now sl hx]
      refine ⟨by rw [controlLights_exitCode]; exact hx, ?_⟩
      intro z
      obtain ⟨h1, h2⟩ := hz z
      rw [controlLights_lastMotionTime, controlLights_occupied, lastMotionOf_snoc]
      cases z
      · refine ⟨h1, ?_⟩
        intro h
        apply h2
        cases ho : occupied Zone.Room sl
        · rw [ho] at h; simp at h
        · rfl
      · refine ⟨h1, ?_⟩
        intro h
        apply h2
        cases ho : occupied Zone.Bathroom sl
        · rw [ho] at h; simp at h
        · rfl
    | roomMotion now =>
      have hs : step w sl (Event.roomMotion now) = roomMotionDetected w now sl := by
        simp [step, hx]
      rw [hs]
      refine ⟨hx, ?_⟩
      intro z
      obtain ⟨h1, h2⟩ := hz z
      rw [lastMotionOf_snoc]
      cases z
      · exact ⟨rfl, fun _ => rfl⟩
      · exact ⟨h1, h2⟩
    | bathroomMotion now =>
      have hs : step w sl (Event.bathroomMotion now) = bathroomMotionDetected w now sl := by
        simp [step, hx]
      rw [hs]
      refine ⟨hx, ?_⟩
      intro z
      obtain ⟨h1, h2⟩ := hz z
      rw [lastMotionOf_snoc]
      cases z
      · exact ⟨h1, h2⟩
      · exact ⟨rfl, fun _ => rfl⟩

/-- C13: the time stamp invariant. Take any sequence `evs` of interrupts and
ticks run from the loop-entry state, optionally followed by `SIGINT` (after
which nothing runs, whatever events `rest` follow). If a zone is occupied in the
resulting state, then `evs` holds an interrupt of that zone and the zone's time
stamp is the clock value `t` of the most recent one (converted to
`unsigned long`, so `t` itself when representable). Neither `controlLights`, nor
`cleanup`, nor the other zone's interrupt routine changes a zone's time stamp. -/
theorem C13_timestamp_invariant (w : Nat) (z : Zone) (evs : List Event)
    (hns : Event.sigint ∉ evs) :
    (occupied z (run w loopEntry evs) = true →
      ∃ t, lastMotionOf z evs = some t ∧
        lastMotionTime z (run w loopEntry evs) = toULong w t ∧
        (t < 2 ^ w → lastMotionTime z (run w loopEntry evs) = t)) ∧
    (∀ rest : List Event,
      occupied z (run w loopEntry (evs ++ Event.sigint :: rest)) = true →
      ∃ t, lastMotionOf z evs = some t ∧
        lastMotionTime z (run w loopEntry (evs ++ Event.sigint :: rest)) = toULong w t ∧
        (t < 2 ^ w →
          lastMotionTime z (run w loopEntry (evs ++ Event.sigint :: rest)) = t)) ∧
    (∀ (u : State) (now : Nat) (signal : Int),
      lastMotionTime z (controlLights w now u) = lastMotionTime z u ∧
      lastMotionTime z (cleanup signal u) = lastMotionTime z u ∧
      (∀ y : Zone, y ≠ z → lastMotionTime z (onMotion w y now u) = lastMotionTime z u)) := by
  obtain ⟨hx, hz⟩ := run_timestamp_inv w evs hns
  obtain ⟨h1, h2⟩ := hz z
  have key : occupied z (run w loopEntry evs) = true →
      ∃ t, lastMotionOf z evs = some t ∧
        lastMotionTime z (run w loopEntry evs) = toULong w t ∧
        (t < 2 ^ w → lastMotionTime z (run w loopEntry evs) = t) := by
    intro ho
    have hsome := h2 ho
    cases hm : lastMotionOf z evs with
    | none => rw [hm] at hsome; cases hsome
    | some t =>
      rw [hm] at h1
      have h3 : lastMotionTime z (run w loopEntry evs) = toULong w t := h1
      exact ⟨t, rfl, h3, fun ht => by rw [h3, toULong_of_lt w t ht]⟩
  refine ⟨key, ?_, ?_⟩
  · intro rest
    have hrun : run w loopEntry (evs ++ Event.sigint :: rest) =
        cleanup 2 (run w loopEntry evs) := by
      rw [run_append, run_cons]
      have hstep : step w (run w loopEntry evs) Event.sigint =
          cleanup 2 (run w loopEntry evs) := by
        simp [step, hx]
      rw [hstep]
      exact run_exited w rest _ rfl
    rw [hrun, cleanup_occupied, cleanup_lastMotionTime]
    exact key
  · intro u now signal
    refine ⟨controlLights_lastMotionTime w now u z, cleanup_lastMotionTime signal u z, ?_⟩
    intro y hy
    cases y <;> cases z <;> first | rfl | exact absurd rfl hy

theorem C13_timestamp_invariant_witness :
    ∃ t,
      lastMotionOf Zone.Room
          [Event.roomMotion 5, Event.tick 10, Event.bathroomMotion 20, Event.roomMotion 30,
            Event.tick 300030] = some t ∧
        lastMotionTime Zone.Room
            (run 32 loopEntry
              [Event.roomMotion 5, Event.tick 10, Event.bathroomMotion 20,
                Event.roomMotion 30, Event.tick 300030]) = toULong 32 t ∧
        (t < 2 ^ 32 →
          lastMotionTime Zone.Room
              (run 32 loopEntry
                [Event.roomMotion 5, Event.tick 10, Event.bathroomMotion 20,
                  Event.roomMotion 30, Event.tick 300030]) = t) :=
  (C13_timestamp_invariant 32 Zone.Room
    [Event.roomMotion 5, Event.tick 10, Event.bathroomMotion 20, Event.roomMotion 30,
      Event.tick 300030] (by decide)).1 (by decide)

/-! ## Repeated motion events -/

/-- C14: the interrupt routine is idempotent and the last call wins. For each
zone, every state `s` and clock values `t1`, `t2`, the routine at `t1` followed
by the routine at `t2` leaves every program variable and every recorded pin
operation exactly as a single call at `t2` on `s` does: the two resulting states
are equal once the console output, where each call prints its own line, is set
aside. In particular two calls with one clock value equal one call. -/
theorem C14_motion_last_call_wins (w : Nat) (z : Zone) (s : State) (t1 t2 : Nat) :
    (∀ c : List String,
      { onMotion w z t2 (onMotion w z t1 s) with cout := c } =
        { onMotion w z t2 s with cout := c }) ∧
    (∀ y : Zone,
      occupied y (onMotion w z t2 (onMotion w z t1 s)) = occupied y (onMotion w z t2 s) ∧
      lastMotionTime y (onMotion w z t2 (onMotion w z t1 s)) =
        lastMotionTime y (onMotion w z t2 s)) ∧
    (onMotion w z t2 (onMotion w z t1 s)).writes = (onMotion w z t2 s).writes ∧
    (∀ c : List String,
      { onMotion w z t1 (onMotion w z t1 s) with cout := c } =
        { onMotion w z t1 s with cout := c }) := by
  refine ⟨?_, ?_, ?_, ?_⟩
  · intro c; cases z <;> rfl
  · intro y; cases z <;> cases y <;> exact ⟨rfl, rfl⟩
  · cases z <;> rfl
  · intro c; cases z <;> rfl

/-! ## Start-up and exit codes -/

/-- C15: start-up and exit codes. `main` returns 1 before the control loop,
having written no relay `LOW`, whenever `wiringPiSetupGpio()` returns -1 or
either `wiringPiISR` call returns a negative value, and only then; when all
three initialisations succeed the loop is entered, in the state `loopEntry`.
The handler `cleanup`, which `SIGINT` runs while the loop is running, writes
all three relays `HIGH` (OFF) and ends the process with exit code 0, after
which no event runs. -/
theorem C15_startup_and_exit_codes (setup isrRoom isrBathroom : Int) :
    ((setup = -1 ∨ isrRoom < 0 ∨ isrBathroom < 0) →
      ∃ u, mainInit setup isrRoom isrBathroom = Startup.returned 1 u ∧
        (u.writes = [] ∨ u.writes = loopEntry.writes) ∧
        u.exitCode = none) ∧
    ((∃ code u, mainInit setup isrRoom isrBathroom = Startup.returned code u) →
      setup = -1 ∨ isrRoom < 0 ∨ isrBathroom < 0) ∧
    (setup ≠ -1 → 0 ≤ isrRoom → 0 ≤ isrBathroom →
      mainInit setup isrRoom isrBathroom = Startup.looping loopEntry) ∧
    (∀ (w : Nat) (s : State), s.exitCode = none →
      step w s Event.sigint = cleanup 2 s ∧
      (step w s Event.sigint).exitCode = some 0 ∧
      newWrites s (step w s Event.sigint) =
        [(RELAY_LIGHT1, Level.HIGH), (RELAY_LIGHT2, Level.HIGH),
          (RELAY_LIGHT3, Level.HIGH)] ∧
      ∀ evs : List Event, run w (step w s Event.sigint) evs = step w s Event.sigint) ∧
    (∀ (signal : Int) (s : State), (cleanup signal s).exitCode = some 0) := by
  refine ⟨?_, ?_, ?_, ?_, fun _ _ => rfl⟩
  · intro h
    by_cases h1 : setup = -1
    · simp [mainInit, h1, cerrLine, coutLine, globals]
    · by_cases h2 : isrRoom < 0
      · simp [mainInit, h1, h2, loopEntry, cerrLine, coutLine, digitalWrite, pinMode, globals]
      · by_cases h3 : isrBathroom < 0
        · simp [mainInit, h1, h2, h3, loopEntry, cerrLine, coutLine, digitalWrite, pinMode,
            globals]
        · rcases h with h | h | h
          · exact absurd h h1
          · exact absurd h h2
          · exact absurd h h3
  · rintro ⟨code, u, h⟩
    by_cases h1 : setup = -1
    · exact Or.inl h1
    · by_cases h2 : isrRoom < 0
      · exact Or.inr (Or.inl h2)
      · by_cases h3 : isrBathroom < 0
        · exact Or.inr (Or.inr h3)
        · simp [mainInit, h1, h2, h3] at h
  · intro h1 h2 h3
    have h2n : ¬ isrRoom < 0 := not_lt.mpr h2
    have h3n : ¬ isrBathroom < 0 := not_lt.mpr h3
    simp [mainInit, h1, h2n, h3n, loopEntry]
  · intro w s hs
    have hstep : step w s Event.sigint = cleanup 2 s := by simp [step, hs]
    refine ⟨hstep, by rw [hstep]; rfl, ?_, ?_⟩
    · rw [hstep]
      apply newWrites_append
      simp [cleanup, digitalWrite, coutLine]
    · intro evs
      rw [hstep]
      exact run_exited w evs _ rfl

theorem C15_startup_and_exit_codes_witness :
    (∃ u, mainInit 0 (-1) 0 = Startup.returned 1 u ∧
        (u.writes = [] ∨ u.writes = loopEntry.writes) ∧ u.exitCode = none) ∧
    mainInit 0 0 0 = Startup.looping loopEntry ∧
    step 32 loopEntry Event.sigint = cleanup 2 loopEntry :=
  ⟨(C15_startup_and_exit_codes 0 (-1) 0).1 (Or.inr (Or.inl (by decide))),
    (C15_startup_and_exit_codes 0 0 0).2.2.1 (by decide) (by decide) (by decide),
    ((C15_startup_and_exit_codes 0 0 0).2.2.2.1 32 loopEntry rfl).1⟩

/-! ## Zone independence of a tick -/

/-- C16: two-run noninterference of `controlLights`. For every clock value and
every two states that agree on a zone's occupied flag and time stamp, the two
runs of `controlLights` produce the same occupied flag and time stamp for that
zone and the same writes to that zone's relays, whatever the other zone's state
is: Room's outcome and the commands to Light1 and Light2 depend only on Room's
state and the clock, Bathroom's outcome and the command to Light3 only on
Bathroom's state and the clock. -/
theorem C16_tick_noninterference (w now : Nat) (z : Zone) (s1 s2 : State)
    (hocc : occupied z s1 = occupied z s2)
    (hlast : lastMotionTime z s1 = lastMotionTime z s2) :
    occupied z (controlLights w now s1) = occupied z (controlLights w now s2) ∧
    lastMotionTime z (controlLights w now s1) = lastMotionTime z (controlLights w now s2) ∧
    (newWrites s1 (controlLights w now s1)).filter (fun e => decide (e.1 ∈ relaysOf z)) =
      (newWrites s2 (controlLights w now s2)).filter (fun e => decide (e.1 ∈ relaysOf z)) ∧
    (∀ r ∈ relaysOf z,
      pinLevel (controlLights w now s1) r = pinLevel (controlLights w now s2) r) := by
  refine ⟨?_, ?_, ?_, ?_⟩
  · rw [controlLights_occupied, controlLights_occupied, hocc, hlast]
  · rw [controlLights_lastMotionTime, controlLights_lastMotionTime, hlast]
  · rw [controlLights_newWrites, controlLights_newWrites]
    cases z
    · have h : s1.roomOccupied = s2.roomOccupied := hocc
      simp [relaysOf, RELAY_LIGHT1, RELAY_LIGHT2, RELAY_LIGHT3, List.filter, h]
    · have h : s1.bathroomOccupied = s2.bathroomOccupied := hocc
      simp [relaysOf, RELAY_LIGHT1, RELAY_LIGHT2, RELAY_LIGHT3, List.filter, h]
  · intro r hr
    rw [controlLights_pinLevel w now s1 z r hr, controlLights_pinLevel w now s2 z r hr, hocc]

theorem C16_tick_noninterference_witness :
    occupied Zone.Room (controlLights 32 400000 (roomMotionDetected 32 7 loopEntry)) =
      occupied Zone.Room
        (controlLights 32 400000
          (bathroomMotionDetected 32 399999 (roomMotionDetected 32 7 loopEntry))) ∧
    (newWrites (roomMotionDetected 32 7 loopEntry)
        (controlLights 32 400000 (roomMotionDetected 32 7 loopEntry))).filter
        (fun e => decide (e.1 ∈ relaysOf Zone.Room)) =
      (newWrites (bathroomMotionDetected 32 399999 (roomMotionDetected 32 7 loopEntry))
        (controlLights 32 400000
          (bathroomMotionDetected 32 399999 (roomMotionDetected 32 7 loopEntry)))).filter
        (fun e => decide (e.1 ∈ relaysOf Zone.Room)) :=
  ⟨(C16_tick_noninterference 32 400000 Zone.Room (roomMotionDetected 32 7 loopEntry)
      (bathroomMotionDetected 32 399999 (roomMotionDetected 32 7 loopEntry)) rfl rfl).1,
    (C16_tick_noninterference 32 400000 Zone.Room (roomMotionDetected 32 7 loopEntry)
      (bathroomMotionDetected 32 399999 (roomMotionDetected 32 7 loopEntry)) rfl rfl).2.2.1⟩

/-! ## The transitions of a zone -/

/-- C17: the transitions of a zone are exactly the specified ones. For every
state and clock value: `controlLights` leaves an idle zone idle and writes
`HIGH` (OFF) to its relays; no interrupt routine, of either zone, makes an
occupied zone idle; `controlLights` makes an occupied zone idle exactly when the
elapsed time it computes, `now - lastMotionTime` in `unsigned long`, exceeds
300000; and whenever any event of the running system takes a zone from occupied
to idle, that event is a tick whose computed elapsed time exceeds 300000. -/
theorem C17_zone_transitions (w : Nat) (z : Zone) (s : State) :
    (∀ now, occupied z s = false →
      occupied z (controlLights w now s) = false ∧
      ∀ r ∈ relaysOf z,
        (r, Level.HIGH) ∈ newWrites s (controlLights w now s) ∧
        pinLevel (controlLights w now s) r = some Level.HIGH) ∧
    (∀ (y : Zone) (t : Nat), occupied z s = true → occupied z (onMotion w y t s) = true) ∧
    (∀ now, occupied z s = true →
      (occupied z (controlLights w now s) = false ↔
        subULong w (toULong w now) (lastMotionTime z s) > 300000)) ∧
    (∀ e : Event, occupied z s = true → occupied z (step w s e) = false →
      ∃ now, e = Event.tick now ∧
        subULong w (toULong w now) (lastMotionTime z s) > 300000) ∧
    (∀ e : Event, occupied z s = false → occupied z (step w s e) = true →
      ∃ t, e = motionEvent z t) := by
  have htick : ∀ now, occupied z s = true →
      (occupied z (controlLights w now s) = false ↔
        subULong w (toULong w now) (lastMotionTime z s) > 300000) := by
    intro now ho
    rw [controlLights_occupied, ho]
    simp [LIGHT_TIMEOUT]
  refine ⟨?_, ?_, htick, ?_, ?_⟩
  · intro now ho
    refine ⟨by rw [controlLights_occupied, ho]; rfl, ?_⟩
    intro r hr
    have h1 := controlLights_mem_newWrites w now s z r hr
    have h2 := controlLights_pinLevel w now s z r hr
    rw [ho] at h1 h2
    exact ⟨by simpa using h1, by simpa using h2⟩
  · intro y t ho
    cases y <;> cases z <;> first | rfl | exact ho
  · intro e ho hidle
    unfold step at hidle
    split at hidle
    · rw [ho] at hidle; cases hidle
    · cases e with
      | tick now => exact ⟨now, rfl, (htick now ho).mp hidle⟩
      | sigint =>
        have hc : occupied z (cleanup 2 s) = false := hidle
        rw [cleanup_occupied, ho] at hc; cases hc
      | roomMotion t =>
        have hc : occupied z (onMotion w Zone.Room t s) = false := hidle
        have hk : occupied z (onMotion w Zone.Room t s) = true := by
          cases z <;> first | rfl | exact ho
        rw [hk] at hc; cases hc
      | bathroomMotion t =>
        have hc : occupied z (onMotion w Zone.Bathroom t s) = false := hidle
        have hk : occupied z (onMotion w Zone.Bathroom t s) = true := by
          cases z <;> first | rfl | exact ho
        rw [hk] at hc; cases hc
  · intro e ho hocc
    unfold step at hocc
    split at hocc
    · rw [ho] at hocc; cases hocc
    · cases e with
      | tick now =>
        have hc : occupied z (controlLights w now s) = true := hocc
        rw [controlLights_occupied, ho] at hc
        simp at hc
      | sigint =>
        have hc : occupied z (cleanup 2 s) = true := hocc
        rw [cleanup_occupied, ho] at hc; cases hc
      | roomMotion t =>
        cases z
        · exact ⟨t, rfl⟩
        · have hc : occupied Zone.Bathroom s = true := hocc
          rw [ho] at hc; cases hc
      | bathroomMotion t =>
        cases z
        · have hc : occupied Zone.Room s = true := hocc
          rw [ho] at hc; cases hc
        · exact ⟨t, rfl⟩

theorem C17_zone_transitions_witness :
    (occupied Zone.Room (controlLights 32 5 loopEntry) = false ∧
      ∀ r ∈ relaysOf Zone.Room,
        (r, Level.HIGH) ∈ newWrites loopEntry (controlLights 32 5 loopEntry) ∧
        pinLevel (controlLights 32 5 loopEntry) r = some Level.HIGH) ∧
    (∃ now, Event.tick 300008 = Event.tick now ∧
      subULong 32 (toULong 32 now)
        (lastMotionTime Zone.Room (roomMotionDetected 32 7 loopEntry)) > 300000) :=
  ⟨(C17_zone_transitions 32 Zone.Room loopEntry).1 5 rfl,
    (C17_zone_transitions 32 Zone.Room (roomMotionDetected 32 7 loopEntry)).2.2.2.1
      (Event.tick 300008) rfl (by decide)⟩

/-! ## Underflow when the time stamp is newer than the clock sample -/

/-- C18: unsigned underflow. For a zone occupied with a representable time stamp
`L` and a tick whose clock sample `now` is below `L`, `controlLights` computes
the elapsed time as `(now - L) mod 2 ^ w`, that is `2 ^ w - (L - now)`; whenever
`L - now < 2 ^ w - 300000` this exceeds the timeout and the tick clears the
zone's occupied flag, although the motion is more recent than the sample. -/
theorem C18_underflow_clears_flag (w : Nat) (z : Zone) (s : State) (now : Nat)
    (hocc : occupied z s = true) (hlt : now < lastMotionTime z s)
    (hL : lastMotionTime z s < 2 ^ w)
    (hgap : lastMotionTime z s - now < 2 ^ w - 300000) :
    subULong w (toULong w now) (lastMotionTime z s) = 2 ^ w - (lastMotionTime z s - now) ∧
    subULong w (toULong w now) (lastMotionTime z s) > 300000 ∧
    occupied z (controlLights w now s) = false := by
  have hnow : now < 2 ^ w := lt_trans hlt hL
  have hsub : subULong w (toULong w now) (lastMotionTime z s) =
      2 ^ w - (lastMotionTime z s - now) := by
    rw [toULong_of_lt w now hnow, subULong_wrapped w now _ hlt hL]
    omega
  refine ⟨hsub, by rw [hsub]; omega, ?_⟩
  rw [controlLights_occupied, hocc, hsub]
  simp [LIGHT_TIMEOUT]; omega

theorem C18_underflow_clears_flag_witness :
    subULong 32 (toULong 32 1000)
        (lastMotionTime Zone.Room (roomMotionDetected 32 1001 loopEntry)) =
      2 ^ 32 - (lastMotionTime Zone.Room (roomMotionDetected 32 1001 loopEntry) - 1000) ∧
    subULong 32 (toULong 32 1000)
        (lastMotionTime Zone.Room (roomMotionDetected 32 1001 loopEntry)) > 300000 ∧
    occupied Zone.Room (controlLights 32 1000 (roomMotionDetected 32 1001 loopEntry)) = false :=
  C18_underflow_clears_flag 32 Zone.Room (roomMotionDetected 32 1001 loopEntry) 1000
    rfl (by decide) (by decide) (by decide)

end AutomatedLighting
